import Mathlib

/-!
Shallow embedding of the voice-assistant command pipeline:
the command interpreter (`AIEngine` in `core/ai_engine.py`) and the
task dispatcher (`TaskExecutor` in `core/task_executor.py`).

Pure behaviours are translated into total Lean functions; the external
collaborators (the chat-completion service, the wall clock, the category
handler objects) are passed in as explicit parameters or abstract records,
matching the spec's "external collaborators" reading.  Python exceptions
are modelled with `Except`/`Option`; Python tuples-vs-bare-string return
values are modelled with explicit sum types so that the interpreter's
mixed return shapes are visible.
-/

/-- The character `{` (kept as a named constant so brace characters never
appear literally in the development). -/
def lbrace : Char := Char.ofNat 123

/-- The character `}`. -/
def rbrace : Char := Char.ofNat 125

/-- A decoded JSON value, as produced by the standard-library decoder the
engine calls.  Numbers are modelled as integers: the replies the extraction
logic is specified against use only strings and nested objects, and no claim
exercises fractional numbers. -/
inductive Json where
  | null
  | bool (b : Bool)
  | num (n : Int)
  | str (s : String)
  | arr (elems : List Json)
  | obj (members : List (String × Json))

/-- The JSON whitespace characters (space, tab, newline, carriage return,
by code point). -/
def jsonWsChars : List Char :=
  [Char.ofNat 32, Char.ofNat 9, Char.ofNat 10, Char.ofNat 13]

/-- JSON whitespace accepted between tokens. -/
def isJsonWs (c : Char) : Bool :=
  jsonWsChars.contains c

/-- Drop leading JSON whitespace. -/
def skipWs : List Char → List Char
  | [] => []
  | c :: cs => if isJsonWs c then skipWs cs else c :: cs

/-- Take the maximal run of decimal digits. -/
def takeDigits : List Char → List Char × List Char
  | [] => ([], [])
  | c :: cs =>
      if c.isDigit then
        let p := takeDigits cs
        (c :: p.1, p.2)
      else ([], c :: cs)

/-- Numeric value of a digit run. -/
def digitsToNat (ds : List Char) : Nat :=
  ds.foldl (fun acc c => acc * 10 + (c.toNat - 48)) 0

/-- Resolution of a backslash escape inside a JSON string (the common
single-character escapes; `\uXXXX` is outside the modelled subset). -/
def escapeTable : List (Char × Char) :=
  [('n', Char.ofNat 10), ('t', Char.ofNat 9), ('r', Char.ofNat 13),
   ('"', '"'), ('\\', '\\'), ('/', '/'), ('b', Char.ofNat 8), ('f', Char.ofNat 12)]

/-- Resolution of one escape character via the table above. -/
def unescapeChar (e : Char) : Option Char :=
  List.lookup e escapeTable

/-- Parse the body of a JSON string after its opening quote, returning the
decoded string and the rest of the input. -/
def parseStringBody (acc : List Char) : List Char → Option (String × List Char)
  | [] => none
  | '\\' :: e :: rest =>
      match unescapeChar e with
      | some ch => parseStringBody (acc ++ [ch]) rest
      | none => none
  | c :: rest =>
      if c == '"' then some (String.mk acc, rest)
      else parseStringBody (acc ++ [c]) rest

/-- Parse an integer token (optional minus sign then digits); a following
`.`/`e`/`E` would start a float, which is outside the modelled subset. -/
def parseIntTok (cs : List Char) : Option (Int × List Char) :=
  let p := match cs with
    | '-' :: r => (true, r)
    | _ => (false, cs)
  match takeDigits p.2 with
  | ([], _) => none
  | (ds, rest) =>
      match rest with
      | '.' :: _ => none
      | 'e' :: _ => none
      | 'E' :: _ => none
      | _ => some ((if p.1 then -1 else 1) * Int.ofNat (digitsToNat ds), rest)

mutual

/-- Parse one JSON value (fuel-driven so totality is structural). -/
def parseVal (fuel : Nat) (cs : List Char) : Option (Json × List Char) :=
  match fuel with
  | 0 => none
  | fuel + 1 =>
    match skipWs cs with
    | 'n' :: 'u' :: 'l' :: 'l' :: r => some (Json.null, r)
    | 't' :: 'r' :: 'u' :: 'e' :: r => some (Json.bool true, r)
    | 'f' :: 'a' :: 'l' :: 's' :: 'e' :: r => some (Json.bool false, r)
    | '"' :: r =>
        match parseStringBody [] r with
        | some (s, r1) => some (Json.str s, r1)
        | none => none
    | c :: r =>
        if c = lbrace then
          match skipWs r with
          | [] => none
          | c1 :: r1 =>
              if c1 = rbrace then some (Json.obj [], r1)
              else
                match parseMembers fuel (c1 :: r1) with
                | some (ms, r2) => some (Json.obj ms, r2)
                | none => none
        else if c = '[' then
          match skipWs r with
          | [] => none
          | c1 :: r1 =>
              if c1 = ']' then some (Json.arr [], r1)
              else
                match parseItems fuel (c1 :: r1) with
                | some (vs, r2) => some (Json.arr vs, r2)
                | none => none
        else if c = '-' || c.isDigit then
          match parseIntTok (c :: r) with
          | some (n, r1) => some (Json.num n, r1)
          | none => none
        else none
    | [] => none

/-- Parse one-or-more comma-separated array elements up to `]`. -/
def parseItems (fuel : Nat) (cs : List Char) : Option (List Json × List Char) :=
  match fuel with
  | 0 => none
  | fuel + 1 =>
    match parseVal fuel cs with
    | none => none
    | some (v, r) =>
        match skipWs r with
        | ',' :: r1 =>
            (match parseItems fuel r1 with
             | some (vs, r2) => some (v :: vs, r2)
             | none => none)
        | ']' :: r1 => some ([v], r1)
        | _ => none

/-- Parse one-or-more comma-separated object members up to `}`. -/
def parseMembers (fuel : Nat) (cs : List Char) :
    Option (List (String × Json) × List Char) :=
  match fuel with
  | 0 => none
  | fuel + 1 =>
    match skipWs cs with
    | '"' :: r =>
        match parseStringBody [] r with
        | none => none
        | some (k, r1) =>
            match skipWs r1 with
            | ':' :: r2 =>
                (match parseVal fuel r2 with
                 | none => none
                 | some (v, r3) =>
                     match skipWs r3 with
                     | [] => none
                     | c :: r4 =>
                         if c = ',' then
                           match parseMembers fuel r4 with
                           | some (ms, r5) => some ((k, v) :: ms, r5)
                           | none => none
                         else if c = rbrace then some ([(k, v)], r4)
                         else none)
            | _ => none
    | _ => none

end

/-- Model of the standard JSON decoder: parse a complete document (leading
and trailing whitespace allowed, anything else trailing is a decode error,
matching the decoder's extra-data error). `none` models a raised decode
error. -/
def parseJson (s : String) : Option Json :=
  match parseVal (s.length + 1) s.toList with
  | some (v, rest) => if (skipWs rest).isEmpty then some v else none
  | none => none

/-- Model of `str.lower()` on the ASCII texts the pipeline handles (kept on
character lists so it evaluates by kernel reduction). -/
def lowerChar (c : Char) : Char :=
  if 'A' ≤ c ∧ c ≤ 'Z' then Char.ofNat (c.toNat + 32) else c

/-- Model of `str.lower()`. -/
def pyLower (s : String) : String :=
  String.mk (s.toList.map lowerChar)

/-- The whitespace characters stripped by `str.strip()` (the ASCII set, by
code point; the replies the claims exercise contain no exotic Unicode
whitespace). -/
def pyWsChars : List Char :=
  [Char.ofNat 32, Char.ofNat 9, Char.ofNat 10, Char.ofNat 13,
   Char.ofNat 11, Char.ofNat 12]

/-- Python whitespace test for `str.strip()`. -/
def isPyWs (c : Char) : Bool :=
  pyWsChars.contains c

/-- Model of `str.strip()`: remove leading and trailing whitespace. -/
def pyStrip (s : String) : String :=
  String.mk (((s.toList.dropWhile isPyWs).reverse.dropWhile isPyWs).reverse)

/-- Substring occurrence on character lists (helper for the Python
`needle in hay` test on strings). -/
def containsSub : List Char → List Char → Bool
  | needle, [] => needle.isEmpty
  | needle, c :: t => List.isPrefixOf needle (c :: t) || containsSub needle t

/-- Model of the Python membership test `needle in hay` on strings. -/
def pyInStr (needle hay : String) : Bool :=
  containsSub needle.toList hay.toList

/-- Model of `str.find(c)` for a single character: index of the first
occurrence, `none` standing for the sentinel `-1`. -/
def pyFindCharIdx (s : String) (c : Char) : Option Nat :=
  s.toList.findIdx? (· == c)

/-- Model of `str.rfind(c)` for a single character: index of the last
occurrence, `none` standing for the sentinel `-1`. -/
def pyRFindCharIdx (s : String) (c : Char) : Option Nat :=
  match s.toList.reverse.findIdx? (· == c) with
  | some i => some (s.length - 1 - i)
  | none => none

/-- Model of the Python slice `s[a:b]` for `0 ≤ a ≤ b` clamped to the
string (the only shapes the engine produces). -/
def pySlice (s : String) (a b : Nat) : String :=
  String.mk ((s.toList.drop a).take (b - a))

/-- The structured task record of `ai_engine.Task`, with the field types the
dataclass annotations declare (`parameters: Dict[str, Any]` as an association
list of JSON values). -/
structure AIEngine.Task where
  action : String
  category : String
  parameters : List (String × Json)
  description : String

/-- The raw record `_extract_task_from_response` builds: the constructor is
passed the decoded JSON field values unchecked, so each field may be any
JSON value, not necessarily a string. -/
structure ExtractedTask where
  action : Json
  category : Json
  parameters : Json
  description : Json

/-- Keys of a decoded JSON object. -/
def jsonKeys (ms : List (String × Json)) : List String := ms.map Prod.fst

/-- Membership of a key in a decoded JSON object (`field in task_data` for a
dict). -/
def jsonHasKey (ms : List (String × Json)) (k : String) : Bool :=
  (jsonKeys ms).contains k

/-- Indexing a decoded JSON object (`task_data[k]`).  With duplicate keys the
decoder's dict keeps the last occurrence, hence the reverse lookup; the
callers only index keys they have checked are present, so the `null` default
is never observed. -/
def jsonGet (ms : List (String × Json)) (k : String) : Json :=
  match List.lookup k ms.reverse with
  | some v => v
  | none => Json.null

/-- Python equality between a decoded JSON value and a string (`s == j`):
true only when the value is that very string. -/
def jsonEqStr : Json → String → Bool
  | Json.str t, s => t == s
  | _, _ => false

/-- The Python expression `field in task_data` for an arbitrary decoded
value: key membership for a dict, substring test for a string, element
equality for a list; on any other value the expression raises `TypeError`,
modelled as `none`. -/
def jsonContainsField (j : Json) (field : String) : Option Bool :=
  match j with
  | Json.obj ms => some (jsonHasKey ms field)
  | Json.str s => some (pyInStr field s)
  | Json.arr xs => some (xs.any (fun x => jsonEqStr x field))
  | _ => none

/-- The required fields of a task record (`required_fields` in
`_extract_task_from_response`). -/
def required_fields : List String := ["action", "category", "parameters", "description"]

/-- The generator expression `all(field in task_data for field in fs)`,
short-circuiting; `none` models the `TypeError` the first membership test
raises on a non-container value. -/
def allFieldsCheck (j : Json) : List String → Option Bool
  | [] => some true
  | f :: fs =>
      match jsonContainsField j f with
      | none => none
      | some false => some false
      | some true => allFieldsCheck j fs

/-- The substring of `s` from its first `{` to its last `}` inclusive
(`response[start_idx:end_idx + 1]` guarded by both finds succeeding). -/
def sliceBetweenBraces (s : String) : Option String :=
  match pyFindCharIdx s lbrace, pyRFindCharIdx s rbrace with
  | some start_idx, some end_idx => some (pySlice s start_idx (end_idx + 1))
  | _, _ => none

/-- Model of `AIEngine._extract_task_from_response`.  The `try` block catches
only the decode error and `KeyError`, so the `TypeError` raised by testing or
indexing a non-dict decoded value propagates; that uncaught exception is the
`Except.error` case. -/
def extract_task_from_response (response : String) : Except String (Option ExtractedTask) :=
  match sliceBetweenBraces response with
  | none => Except.ok none
  | some json_str =>
      match parseJson json_str with
      | none => Except.ok none
      | some task_data =>
          match allFieldsCheck task_data required_fields with
          | none => Except.error "argument of type is not a container"
          | some false => Except.ok none
          | some true =>
              match task_data with
              | Json.obj ms =>
                  Except.ok (some
                    { action := jsonGet ms "action"
                      category := jsonGet ms "category"
                      parameters := jsonGet ms "parameters"
                      description := jsonGet ms "description" })
              | _ => Except.error "value is not subscriptable"

/-- The keyword test `any(word in input_lower for word in words)`. -/
def anyKeywordIn (input_lower : String) (words : List String) : Bool :=
  words.any (fun w => pyInStr w input_lower)

/-- Model of `AIEngine._fallback_response`.  The wall clock is an external
collaborator, so the already-formatted current time is a parameter. -/
def fallback_response (voice_input : String) (current_time : String) : String :=
  let input_lower := pyLower voice_input
  if anyKeywordIn input_lower ["shutdown", "turn off", "power off"] then
    "I can help you shut down the computer. Please use the GUI or type 'shutdown' in the command line."
  else if anyKeywordIn input_lower ["restart", "reboot"] then
    "I can help you restart the computer. Please use the GUI or type 'restart' in the command line."
  else if anyKeywordIn input_lower ["volume", "sound"] then
    "I can help you control the volume. Please use the volume controls or let me know if you want me to adjust it."
  else if anyKeywordIn input_lower ["time", "what time"] then
    "The current time is " ++ current_time ++ "."
  else if anyKeywordIn input_lower ["weather", "temperature"] then
    "I can't check the weather right now, but you can ask me to open a weather website for you."
  else if anyKeywordIn input_lower ["hello", "hi", "hey"] then
    "Hello! I'm your AI assistant. I can help you control your computer, manage files, and automate tasks. What would you like me to do?"
  else
    "I heard you say '" ++ voice_input ++ "'. I'm here to help! You can ask me to control your computer, manage files, or help with various tasks."

/-- Outcome of the chat-completion call, an external collaborator: either the
reply's message content, or any exception raised by the call (network error,
malformed payload, missing content). -/
inductive ServiceOutcome where
  | ok (content : String)
  | fail (err : String)

/-- Value returned by `AIEngine._process_with_openai`: either the declared
`(response, task)` tuple, or — in the exception path, which does
`return self._fallback_response(voice_input)` — a bare string. -/
inductive AIResult where
  | bare (s : String)
  | pair (response : String) (task : Option ExtractedTask)

/-- Model of `AIEngine._process_with_openai`.  A produced task's
acknowledgment calls `.lower()` on the description; when the extracted
description is not a string that raises `AttributeError`, which the method's
own handler turns into the fallback path, again as a bare string. -/
def process_with_openai (voice_input : String) (svc : ServiceOutcome)
    (current_time : String) : AIResult :=
  match svc with
  | ServiceOutcome.fail _ => AIResult.bare (fallback_response voice_input current_time)
  | ServiceOutcome.ok content =>
      let response_text := pyStrip content
      match extract_task_from_response response_text with
      | Except.error _ => AIResult.bare (fallback_response voice_input current_time)
      | Except.ok (some task) =>
          match task.description with
          | Json.str d => AIResult.pair ("I'll " ++ pyLower d ++ ".") (some task)
          | _ => AIResult.bare (fallback_response voice_input current_time)
      | Except.ok none => AIResult.pair response_text none

/-- Value returned by `AIEngine.process_command`: the declared tuple, a bare
string (the no-api-key branch returns `self._fallback_response(...)`
directly), or — when the bare string returned by the service path happens to
have exactly two characters — the pair of one-character strings produced by
tuple-unpacking it. -/
inductive PCResult where
  | bare (s : String)
  | pair (response : String) (task : Option ExtractedTask)
  | charPair (a b : String)

/-- Model of `AIEngine.process_command`.  In the service path the code does
`response, task = self._process_with_openai(...)`: unpacking a bare string
raises `ValueError` unless it has exactly two characters, and the method's
own `except` then returns the generic apology tuple. -/
def process_command (has_api_key : Bool) (voice_input : String)
    (svc : ServiceOutcome) (current_time : String) : PCResult :=
  if has_api_key = false then
    PCResult.bare (fallback_response voice_input current_time)
  else
    match process_with_openai voice_input svc current_time with
    | AIResult.pair response task => PCResult.pair response task
    | AIResult.bare s =>
        match s.toList with
        | [c1, c2] => PCResult.charPair (String.mk [c1]) (String.mk [c2])
        | _ => PCResult.pair "I'm sorry, I encountered an error processing your command." none

/-- The closed category set of `AIEngine.validate_task`. -/
def valid_categories : List String := ["system", "file", "web", "ai"]

/-- Model of `AIEngine.validate_task`.  Field truthiness on the annotated
string fields is non-emptiness; `isinstance(task.action, str)` holds by the
dataclass annotation, leaving the length bound. -/
def AIEngine.validate_task (t : AIEngine.Task) : Bool :=
  if t.action = "" ∨ t.category = "" ∨ t.description = "" then false
  else if t.category ∉ valid_categories then false
  else if t.action.length < 2 then false
  else true

/-- A Python value returned by a handler operation, abstracted to the two
observations the dispatcher makes: its `str(...)` rendering and its
truthiness. -/
structure PyObj where
  display : String
  truthy : Bool

/-- A category handler, an external collaborator of the dispatcher: an object
with named attributes that may or may not be callable, an optional generic
`execute`, optional callability of the object itself, and the optional
enumeration/introspection surface `get_available_tasks` consumes.  Calling an
operation either returns a value or raises (`Except.error` carries
`str(e)`). -/
structure Handler where
  typeName : String
  truthy : Bool
  attrs : List String
  attrCallable : String → Bool
  attrTypeName : String → String
  invoke : String → List (String × Json) → Except String PyObj
  invokeExecute : AIEngine.Task → Except String PyObj
  selfCallable : Bool
  invokeSelf : AIEngine.Task → Except String PyObj
  callGetAvailableActions : List String
  publicMethods : List String

/-- The dispatcher's state: the `handlers` dict mapping category names to
handler objects. -/
structure TaskExecutor where
  handlers : List (String × Handler)

/-- Dict assignment `d[k] = v`: replace the value in place if the key is
present, else append. -/
def assocSet : List (String × Handler) → String → Handler → List (String × Handler)
  | [], k, v => [(k, v)]
  | (k1, v1) :: rest, k, v =>
      if k1 == k then (k, v) :: rest else (k1, v1) :: assocSet rest k v

/-- Model of `TaskExecutor.register_handler`. -/
def TaskExecutor.register_handler (ex : TaskExecutor) (category : String)
    (handler : Handler) : TaskExecutor :=
  { handlers := assocSet ex.handlers category handler }

/-- Model of `TaskExecutor._validate_task`: `not task` is always false for a
dataclass instance, so the check is emptiness of `action` and `category`
followed by membership of the category among the registered keys. -/
def TaskExecutor.validate_task (ex : TaskExecutor) (t : AIEngine.Task) : Bool :=
  if t.action = "" ∨ t.category = "" then false
  else if t.category ∉ ex.handlers.map Prod.fst then false
  else true

/-- The `TypeError` message raised by calling a non-callable attribute. -/
def notCallableMsg (h : Handler) (name : String) : String :=
  "'" ++ h.attrTypeName name ++ "' object is not callable"

/-- Fetching and calling the attribute named `name` with the task's
parameters as keyword arguments (`method(**task.parameters)` when the dict is
non-empty, `method()` otherwise — the two coincide, both pass exactly the
listed keyword arguments).  Calling a non-callable attribute raises
`TypeError`. -/
def callAttr (h : Handler) (name : String) (params : List (String × Json)) :
    Except String PyObj :=
  if h.attrCallable name then h.invoke name params
  else Except.error (notCallableMsg h name)

/-- The per-branch result conversion of `_execute_with_handler` together with
its `except` clause: `str(result) if result else "Task completed
successfully"`, and any raised exception becomes the `Execution failed`
string. -/
def displayResult : Except String PyObj → String
  | Except.ok r => if r.truthy then r.display else "Task completed successfully"
  | Except.error e => "Execution failed: " ++ e

/-- Model of `TaskExecutor._execute_with_handler`: exact-name attribute
first, then the generic `execute`, then calling the handler itself, then the
unsupported-action message. -/
def TaskExecutor.execute_with_handler (h : Handler) (t : AIEngine.Task) : String :=
  let method_name := t.action
  if method_name ∈ h.attrs then
    displayResult (callAttr h method_name t.parameters)
  else if "execute" ∈ h.attrs then
    displayResult
      (if h.attrCallable "execute" then h.invokeExecute t
       else Except.error (notCallableMsg h "execute"))
  else if h.selfCallable then
    displayResult (h.invokeSelf t)
  else
    "Handler " ++ h.typeName ++ " doesn't support action: " ++ method_name

/-- Model of `TaskExecutor.execute_task`.  `self.handlers.get(...)` cannot be
`None` once validation passed, but `if not handler` also catches a registered
falsy handler object, which is reported with the no-handler message. -/
def TaskExecutor.execute_task (ex : TaskExecutor) (t : AIEngine.Task) : String :=
  if TaskExecutor.validate_task ex t = false then
    "Invalid task: " ++ t.action
  else
    match List.lookup t.category ex.handlers with
    | none => "No handler registered for category: " ++ t.category
    | some handler =>
        if handler.truthy = false then
          "No handler registered for category: " ++ t.category
        else
          TaskExecutor.execute_with_handler handler t

/-- The loop body of `get_available_tasks` for one handler: delegate to
`get_available_actions` when the handler has that attribute, else the
introspected public callable names (`dir`-based, an observation of the
external handler object). -/
def availableActionsOf (h : Handler) : List String :=
  if "get_available_actions" ∈ h.attrs then h.callGetAvailableActions
  else h.publicMethods

/-- Model of `TaskExecutor.get_available_tasks`: one entry per registered
category, in registration order. -/
def TaskExecutor.get_available_tasks (ex : TaskExecutor) : List (String × List String) :=
  ex.handlers.map (fun p => (p.1, availableActionsOf p.2))

/-- A key absent from an association list (lookup `none`) is not among its
keys. -/
theorem not_mem_keys_of_lookup_none (k : String) :
    ∀ l : List (String × Handler), List.lookup k l = none → k ∉ l.map Prod.fst := by
  intro l
  induction l with
  | nil => intro _ hm; simp at hm
  | cons p rest ih =>
      intro hl hm
      cases hkp : (k == p.1) with
      | true =>
          simp only [List.lookup, hkp] at hl
          exact Option.noConfusion hl
      | false =>
          simp only [List.lookup, hkp] at hl
          simp only [List.map_cons, List.mem_cons] at hm
          rcases hm with h | h
          · exact absurd (by simp [h] : (k == p.1) = true) (by simp [hkp])
          · exact ih hl h

/-- C5: `AIEngine.validate_task` accepts a task exactly when `action`,
`category` and `description` are all non-empty, the category lies in the
closed set `valid_categories`, and the action is a string of length at
least 2. -/
theorem validate_task_iff_wellformed (t : AIEngine.Task) :
    AIEngine.validate_task t = true ↔
      (t.action ≠ "" ∧ t.category ≠ "" ∧ t.description ≠ "" ∧
       t.category ∈ valid_categories ∧ 2 ≤ t.action.length) := by
  constructor
  · intro hv
    unfold AIEngine.validate_task at hv
    by_cases h1 : (t.action = "" ∨ t.category = "" ∨ t.description = "")
    · rw [if_pos h1] at hv
      exact absurd hv (by simp)
    · rw [if_neg h1] at hv
      by_cases h2 : t.category ∉ valid_categories
      · rw [if_pos h2] at hv
        exact absurd hv (by simp)
      · rw [if_neg h2] at hv
        by_cases h3 : t.action.length < 2
        · rw [if_pos h3] at hv
          exact absurd hv (by simp)
        · push_neg at h1 h2
          exact ⟨h1.1, h1.2.1, h1.2.2, h2, by omega⟩
  · rintro ⟨ha, hc, hd, hm, hl⟩
    unfold AIEngine.validate_task
    rw [if_neg (by tauto), if_neg (by simp [hm]), if_neg (by omega)]

/-- A dispatcher with nothing registered, and a task naming an unregistered
category. -/
def emptyExecutor : TaskExecutor := { handlers := [] }

/-- Concrete task whose category has no registered handler. -/
def taskNoHandler : AIEngine.Task :=
  { action := "volume_up", category := "system", parameters := [],
    description := "increase volume" }

/-- C3 counterexample: with no handler registered for `"system"`,
`execute_task` answers `"Invalid task: volume_up"` — not a string that names
the missing category with the no-handler message. -/
theorem execute_task_missing_handler_counterexample :
    TaskExecutor.execute_task emptyExecutor taskNoHandler = "Invalid task: volume_up" ∧
    TaskExecutor.execute_task emptyExecutor taskNoHandler ≠
      "No handler registered for category: system" :=
  ⟨rfl, by decide⟩

/-- C3 (amended): for a task whose category has no registered handler,
`execute_task` returns the validation failure string `"Invalid task: "` plus
the action (validation rejects the task before the handler lookup, so no
handler is consulted and nothing is raised). -/
theorem execute_task_missing_handler_invalid_string (ex : TaskExecutor)
    (t : AIEngine.Task) (h : List.lookup t.category ex.handlers = none) :
    TaskExecutor.execute_task ex t = "Invalid task: " ++ t.action := by
  have hk : t.category ∉ ex.handlers.map Prod.fst :=
    not_mem_keys_of_lookup_none t.category ex.handlers h
  have hv : TaskExecutor.validate_task ex t = false := by
    unfold TaskExecutor.validate_task
    by_cases h1 : (t.action = "" ∨ t.category = "")
    · rw [if_pos h1]
    · rw [if_neg h1, if_pos hk]
  unfold TaskExecutor.execute_task
  rw [hv]
  simp

/-- C3 witness: the amended statement applied to the concrete empty
registry. -/
theorem execute_task_missing_handler_invalid_string_witness :
    List.lookup taskNoHandler.category emptyExecutor.handlers = none ∧
    TaskExecutor.execute_task emptyExecutor taskNoHandler = "Invalid task: " ++ "volume_up" :=
  ⟨rfl, execute_task_missing_handler_invalid_string emptyExecutor taskNoHandler rfl⟩

/-- A value a test handler returns from its operation. -/
def pongObj : PyObj := { display := "pong", truthy := true }

/-- A concrete well-behaved handler exposing a callable `ping` operation. -/
def pingHandler : Handler :=
  { typeName := "PingHandler"
    truthy := true
    attrs := ["ping"]
    attrCallable := fun _ => true
    attrTypeName := fun _ => "method"
    invoke := fun _ _ => Except.ok pongObj
    invokeExecute := fun _ => Except.ok pongObj
    selfCallable := false
    invokeSelf := fun _ => Except.ok pongObj
    callGetAvailableActions := ["ping"]
    publicMethods := ["ping"] }

/-- A dispatcher with `pingHandler` registered for `"system"`. -/
def pingExecutor : TaskExecutor := { handlers := [("system", pingHandler)] }

/-- A task whose `description` is empty but whose other fields are fine. -/
def emptyDescTask : AIEngine.Task :=
  { action := "ping", category := "system", parameters := [], description := "" }

/-- C4 counterexample: the dispatcher's validation does not look at
`description`.  A task with an empty description is not rejected: the
handler's `ping` operation is invoked and its result `"pong"` is returned,
not a failure string. -/
theorem execute_task_empty_description_counterexample :
    emptyDescTask.description = "" ∧
    TaskExecutor.execute_task pingExecutor emptyDescTask = "pong" :=
  ⟨rfl, rfl⟩

/-- C4 (amended): the dispatcher's validation rejects exactly the emptiness
of `action` or `category`: such a task yields the failure string
`"Invalid task: "` plus the action, for every registry, with no handler
invoked and nothing raised; an empty `description` alone is not rejected. -/
theorem execute_task_rejects_empty_action_or_category (ex : TaskExecutor)
    (t : AIEngine.Task) (h : t.action = "" ∨ t.category = "") :
    TaskExecutor.execute_task ex t = "Invalid task: " ++ t.action := by
  have hv : TaskExecutor.validate_task ex t = false := by
    unfold TaskExecutor.validate_task
    rw [if_pos h]
  unfold TaskExecutor.execute_task
  rw [hv]
  simp

/-- C4 witness: the amended statement at a concrete empty-action task. -/
theorem execute_task_rejects_empty_action_or_category_witness :
    TaskExecutor.execute_task pingExecutor
      { action := "", category := "system", parameters := [], description := "x" } =
      "Invalid task: " ++ "" :=
  execute_task_rejects_empty_action_or_category pingExecutor
    { action := "", category := "system", parameters := [], description := "x" }
    (Or.inl rfl)

/-- Once validation passes, the looked-up handler is truthy, so dispatch
reduces to `_execute_with_handler` on it. -/
theorem execute_task_eq_with_handler (ex : TaskExecutor) (t : AIEngine.Task)
    (h : Handler) (hv : TaskExecutor.validate_task ex t = true)
    (hl : List.lookup t.category ex.handlers = some h) (ht : h.truthy = true) :
    TaskExecutor.execute_task ex t = TaskExecutor.execute_with_handler h t := by
  unfold TaskExecutor.execute_task
  rw [hv, hl]
  simp [ht]

/-- C6: for a task that passes validation and whose category resolves to a
(truthy) handler, dispatch resolves the operation with this precedence,
stopping at the first match: (a) the attribute named exactly `task.action`,
called with the task's parameters as keyword arguments; (b) else the generic
`execute` applied to the task; (c) else the handler itself called on the
task; (d) else the failure string naming the handler's type and the
unsupported action. -/
theorem execute_task_dispatch_precedence (ex : TaskExecutor) (t : AIEngine.Task)
    (h : Handler) (hv : TaskExecutor.validate_task ex t = true)
    (hl : List.lookup t.category ex.handlers = some h) (ht : h.truthy = true) :
    (t.action ∈ h.attrs →
        TaskExecutor.execute_task ex t = displayResult (callAttr h t.action t.parameters)) ∧
    (t.action ∉ h.attrs → "execute" ∈ h.attrs →
        TaskExecutor.execute_task ex t =
          displayResult (if h.attrCallable "execute" then h.invokeExecute t
            else Except.error (notCallableMsg h "execute"))) ∧
    (t.action ∉ h.attrs → "execute" ∉ h.attrs → h.selfCallable = true →
        TaskExecutor.execute_task ex t = displayResult (h.invokeSelf t)) ∧
    (t.action ∉ h.attrs → "execute" ∉ h.attrs → h.selfCallable = false →
        TaskExecutor.execute_task ex t =
          "Handler " ++ h.typeName ++ " doesn't support action: " ++ t.action) := by
  have he := execute_task_eq_with_handler ex t h hv hl ht
  refine ⟨fun ha => ?_, fun ha hb => ?_, fun ha hb hc => ?_, fun ha hb hc => ?_⟩
  · rw [he]
    simp [TaskExecutor.execute_with_handler, ha]
  · rw [he]
    simp [TaskExecutor.execute_with_handler, ha, hb]
  · rw [he]
    simp [TaskExecutor.execute_with_handler, ha, hb, hc]
  · rw [he]
    simp [TaskExecutor.execute_with_handler, ha, hb, hc]

/-- A handler with no attributes at all, no `execute`, and not itself
callable (branch (d) of the precedence). -/
def bareHandler : Handler :=
  { typeName := "SystemController"
    truthy := true
    attrs := []
    attrCallable := fun _ => false
    attrTypeName := fun _ => "NoneType"
    invoke := fun _ _ => Except.error "unreachable"
    invokeExecute := fun _ => Except.error "unreachable"
    selfCallable := false
    invokeSelf := fun _ => Except.error "unreachable"
    callGetAvailableActions := []
    publicMethods := [] }

/-- A dispatcher with `bareHandler` registered for `"system"`. -/
def bareExecutor : TaskExecutor := { handlers := [("system", bareHandler)] }

/-- A task asking the bare handler for an operation it does not have. -/
def flyTask : AIEngine.Task :=
  { action := "fly", category := "system", parameters := [], description := "take off" }

/-- C6 witness: the precedence theorem applied at a concrete handler with no
matching attribute, no `execute` and no callability, yielding the
unsupported-action string. -/
theorem execute_task_dispatch_precedence_witness :
    TaskExecutor.validate_task bareExecutor flyTask = true ∧
    TaskExecutor.execute_task bareExecutor flyTask =
      "Handler " ++ "SystemController" ++ " doesn't support action: " ++ "fly" :=
  ⟨rfl, (execute_task_dispatch_precedence bareExecutor flyTask bareHandler rfl rfl
      rfl).2.2.2 (by decide) (by decide) rfl⟩

/-- C7: the dispatcher never propagates an exception (in the embedding every
path yields a result string): whichever operation the precedence selects, a
raised exception becomes the `"Execution failed: "` string with the
exception's text, and an operation returning an empty/absent (falsy) value
yields the generic `"Task completed successfully"`. -/
theorem execute_task_catches_and_defaults (ex : TaskExecutor) (t : AIEngine.Task)
    (h : Handler) (hv : TaskExecutor.validate_task ex t = true)
    (hl : List.lookup t.category ex.handlers = some h) (ht : h.truthy = true) :
    (∀ e, t.action ∈ h.attrs → h.attrCallable t.action = true →
        h.invoke t.action t.parameters = Except.error e →
        TaskExecutor.execute_task ex t = "Execution failed: " ++ e) ∧
    (∀ r, t.action ∈ h.attrs → h.attrCallable t.action = true →
        h.invoke t.action t.parameters = Except.ok r → r.truthy = false →
        TaskExecutor.execute_task ex t = "Task completed successfully") ∧
    (∀ e, t.action ∉ h.attrs → "execute" ∈ h.attrs → h.attrCallable "execute" = true →
        h.invokeExecute t = Except.error e →
        TaskExecutor.execute_task ex t = "Execution failed: " ++ e) ∧
    (∀ r, t.action ∉ h.attrs → "execute" ∉ h.attrs → h.selfCallable = true →
        h.invokeSelf t = Except.ok r → r.truthy = false →
        TaskExecutor.execute_task ex t = "Task completed successfully") := by
  have he := execute_task_eq_with_handler ex t h hv hl ht
  refine ⟨fun e h1 h2 h3 => ?_, fun r h1 h2 h3 h4 => ?_,
          fun e h1 h2 h3 h4 => ?_, fun r h1 h2 h3 h4 h5 => ?_⟩
  · rw [he]
    simp [TaskExecutor.execute_with_handler, callAttr, displayResult, h1, h2, h3]
  · rw [he]
    simp [TaskExecutor.execute_with_handler, callAttr, displayResult, h1, h2, h3, h4]
  · rw [he]
    simp [TaskExecutor.execute_with_handler, callAttr, displayResult, h1, h2, h3, h4]
  · rw [he]
    simp [TaskExecutor.execute_with_handler, callAttr, displayResult, h1, h2, h3, h4, h5]

/-- A handler whose only operation raises when called. -/
def boomHandler : Handler :=
  { typeName := "BoomHandler"
    truthy := true
    attrs := ["explode"]
    attrCallable := fun _ => true
    attrTypeName := fun _ => "method"
    invoke := fun _ _ => Except.error "kaboom"
    invokeExecute := fun _ => Except.error "kaboom"
    selfCallable := false
    invokeSelf := fun _ => Except.error "kaboom"
    callGetAvailableActions := []
    publicMethods := ["explode"] }

/-- A dispatcher with `boomHandler` registered for `"system"`. -/
def boomExecutor : TaskExecutor := { handlers := [("system", boomHandler)] }

/-- A task invoking the raising operation. -/
def explodeTask : AIEngine.Task :=
  { action := "explode", category := "system", parameters := [], description := "boom" }

/-- C7 witness: a handler operation that raises is converted to the
`Execution failed` result string. -/
theorem execute_task_catches_and_defaults_witness :
    TaskExecutor.execute_task boomExecutor explodeTask = "Execution failed: " ++ "kaboom" :=
  (execute_task_catches_and_defaults boomExecutor explodeTask boomHandler rfl rfl
    rfl).1 "kaboom" (by decide) rfl rfl

/-- C10: whenever the handler has an attribute named exactly `task.action` —
callable or not — dispatch commits to the exact-name branch (the result is
determined by calling that attribute; the `execute` fallback and the
direct-call fallback are never consulted); when that attribute is not
callable the call raises `TypeError` and the result is the
`"Execution failed"` string, not an exception and not the `execute`
fallback. -/
theorem execute_task_exact_name_priority (ex : TaskExecutor) (t : AIEngine.Task)
    (h : Handler) (hv : TaskExecutor.validate_task ex t = true)
    (hl : List.lookup t.category ex.handlers = some h) (ht : h.truthy = true) :
    (t.action ∈ h.attrs →
        TaskExecutor.execute_task ex t = displayResult (callAttr h t.action t.parameters)) ∧
    (t.action ∈ h.attrs → h.attrCallable t.action = false →
        TaskExecutor.execute_task ex t = "Execution failed: " ++ notCallableMsg h t.action) := by
  have he := execute_task_eq_with_handler ex t h hv hl ht
  refine ⟨fun h1 => ?_, fun h1 h2 => ?_⟩
  · rw [he]
    simp [TaskExecutor.execute_with_handler, h1]
  · rw [he]
    simp [TaskExecutor.execute_with_handler, callAttr, displayResult, h1, h2]

/-- A handler carrying a non-callable attribute `version` (and even a
non-callable `execute`, plus callability of the object itself, neither of
which may be reached). -/
def dataHandler : Handler :=
  { typeName := "DataHolder"
    truthy := true
    attrs := ["version", "execute"]
    attrCallable := fun _ => false
    attrTypeName := fun _ => "int"
    invoke := fun _ _ => Except.ok pongObj
    invokeExecute := fun _ => Except.ok pongObj
    selfCallable := true
    invokeSelf := fun _ => Except.ok pongObj
    callGetAvailableActions := []
    publicMethods := [] }

/-- A dispatcher with `dataHandler` registered for `"system"`. -/
def dataExecutor : TaskExecutor := { handlers := [("system", dataHandler)] }

/-- A task naming the non-callable attribute. -/
def versionTask : AIEngine.Task :=
  { action := "version", category := "system", parameters := [], description := "v" }

/-- C10 witness: invoking the non-callable attribute yields the
`Execution failed` string carrying the `TypeError` text. -/
theorem execute_task_exact_name_priority_witness :
    TaskExecutor.execute_task dataExecutor versionTask =
      "Execution failed: " ++ "'int' object is not callable" :=
  (execute_task_exact_name_priority dataExecutor versionTask dataHandler rfl rfl
    rfl).2 (by decide) rfl

/-- Looking a key up in the per-category image of the registry gives the
image of the key's handler (first match on both sides, which coincides with
dict semantics). -/
theorem lookup_map_available (cat : String) (h : Handler) :
    ∀ l : List (String × Handler), List.lookup cat l = some h →
      List.lookup cat (l.map (fun p => (p.1, availableActionsOf p.2))) =
        some (availableActionsOf h) := by
  intro l
  induction l with
  | nil => intro hl; simp [List.lookup] at hl
  | cons p rest ih =>
      intro hl
      cases hkp : (cat == p.1) with
      | true =>
          simp only [List.lookup, hkp] at hl
          cases hl
          simp only [List.map_cons, List.lookup, hkp]
      | false =>
          simp only [List.lookup, hkp] at hl
          simp only [List.map_cons, List.lookup, hkp]
          exact ih hl

/-- C9: for a registered category whose handler has the
`get_available_actions` attribute, `get_available_tasks` maps that category
to exactly the list that call returns, whatever else is registered. -/
theorem get_available_tasks_delegates (ex : TaskExecutor) (cat : String)
    (h : Handler) (hl : List.lookup cat ex.handlers = some h)
    (ha : "get_available_actions" ∈ h.attrs) :
    List.lookup cat (TaskExecutor.get_available_tasks ex) =
      some h.callGetAvailableActions := by
  have := lookup_map_available cat h ex.handlers hl
  unfold TaskExecutor.get_available_tasks
  rw [this]
  unfold availableActionsOf
  rw [if_pos ha]

/-- A handler declaring its own action enumeration. -/
def enumHandler : Handler :=
  { typeName := "SystemController"
    truthy := true
    attrs := ["get_available_actions", "shutdown", "restart", "volume_up"]
    attrCallable := fun _ => true
    attrTypeName := fun _ => "method"
    invoke := fun _ _ => Except.ok pongObj
    invokeExecute := fun _ => Except.ok pongObj
    selfCallable := false
    invokeSelf := fun _ => Except.ok pongObj
    callGetAvailableActions := ["shutdown", "restart", "volume_up"]
    publicMethods := ["shutdown", "restart", "volume_up", "get_available_actions"] }

/-- A handler with no enumeration attribute, to sit alongside. -/
def introspectedHandler : Handler :=
  { typeName := "FileManager"
    truthy := true
    attrs := ["create_file"]
    attrCallable := fun _ => true
    attrTypeName := fun _ => "method"
    invoke := fun _ _ => Except.ok pongObj
    invokeExecute := fun _ => Except.ok pongObj
    selfCallable := false
    invokeSelf := fun _ => Except.ok pongObj
    callGetAvailableActions := []
    publicMethods := ["create_file"] }

/-- A two-category registry mixing both kinds of handler. -/
def enumExecutor : TaskExecutor :=
  { handlers := [("file", introspectedHandler), ("system", enumHandler)] }

/-- C9 witness: in the mixed registry, the `"system"` entry of the
enumeration is exactly the handler's declared list. -/
theorem get_available_tasks_delegates_witness :
    List.lookup "system" (TaskExecutor.get_available_tasks enumExecutor) =
      some ["shutdown", "restart", "volume_up"] :=
  get_available_tasks_delegates enumExecutor "system" enumHandler rfl (by decide)

/-- C1 (code evaluated at the failing input): with no API key configured,
`process_command` returns the bare fallback string itself — the no-api-key
branch does `return self._fallback_response(voice_input)` — and not the
`(response, None)` tuple its annotation, docstring and caller
(`main.py` unpacks `response, task = ...`) require. -/
theorem process_command_offline_returns_bare_string :
    process_command false "hello" (ServiceOutcome.fail "no key") "12:00 PM" =
      PCResult.bare "Hello! I'm your AI assistant. I can help you control your computer, manage files, and automate tasks. What would you like me to do?" ∧
    ∀ r tk, process_command false "hello" (ServiceOutcome.fail "no key") "12:00 PM" ≠
      PCResult.pair r tk := by
  refine ⟨rfl, fun r tk hps => ?_⟩
  rw [show process_command false "hello" (ServiceOutcome.fail "no key") "12:00 PM" =
      PCResult.bare "Hello! I'm your AI assistant. I can help you control your computer, manage files, and automate tasks. What would you like me to do?" from rfl] at hps
  exact PCResult.noConfusion hps

/-- C2 (code evaluated at the failing input): when the service call fails,
`_process_with_openai`'s handler returns the bare fallback string; unpacking
it as `response, task` raises `ValueError` (the string has far more than two
characters), and `process_command`'s own handler then returns the generic
apology tuple — not the offline fallback response the claim requires.  The
second conjunct shows the apology differs from that fallback response. -/
theorem process_command_service_failure_returns_apology :
    process_command true "hello" (ServiceOutcome.fail "network error") "12:00 PM" =
      PCResult.pair "I'm sorry, I encountered an error processing your command." none ∧
    fallback_response "hello" "12:00 PM" ≠
      "I'm sorry, I encountered an error processing your command." :=
  ⟨rfl, by decide⟩

/-- On a decoded record (dict), the required-fields generator expression is
exactly the conjunction of key-membership tests. -/
theorem allFieldsCheck_obj (ms : List (String × Json)) :
    ∀ fs : List String, allFieldsCheck (Json.obj ms) fs = some (fs.all (jsonHasKey ms)) := by
  intro fs
  induction fs with
  | nil => rfl
  | cons f fs ih =>
      simp only [allFieldsCheck, jsonContainsField, List.all_cons]
      cases hk : jsonHasKey ms f with
      | false => simp
      | true => simp [ih]

/-- C8: for a service reply whose first-`{`-to-last-`}` slice decodes to a
record `ms`, extraction yields a task exactly when all four required fields
are present, the task carrying those fields' values; without them there is
no task and the (stripped) reply itself is the response; and when a task is
produced whose description is the string `d`, the interpreter's response is
the acknowledgment built from the lower-cased description — not the raw
reply. -/
theorem extract_and_acknowledge (voice_input current_time reply js : String)
    (ms : List (String × Json))
    (hs : sliceBetweenBraces (pyStrip reply) = some js)
    (hp : parseJson js = some (Json.obj ms)) :
    (required_fields.all (jsonHasKey ms) = true →
        extract_task_from_response (pyStrip reply) =
          Except.ok (some
            { action := jsonGet ms "action", category := jsonGet ms "category",
              parameters := jsonGet ms "parameters",
              description := jsonGet ms "description" })) ∧
    (required_fields.all (jsonHasKey ms) = false →
        extract_task_from_response (pyStrip reply) = Except.ok none ∧
        process_with_openai voice_input (ServiceOutcome.ok reply) current_time =
          AIResult.pair (pyStrip reply) none) ∧
    (∀ d, required_fields.all (jsonHasKey ms) = true →
        jsonGet ms "description" = Json.str d →
        process_with_openai voice_input (ServiceOutcome.ok reply) current_time =
          AIResult.pair ("I'll " ++ pyLower d ++ ".")
            (some
              { action := jsonGet ms "action", category := jsonGet ms "category",
                parameters := jsonGet ms "parameters",
                description := jsonGet ms "description" })) := by
  have hbase : ∀ b, required_fields.all (jsonHasKey ms) = b →
      extract_task_from_response (pyStrip reply) =
        (if b then
          Except.ok (some
            { action := jsonGet ms "action", category := jsonGet ms "category",
              parameters := jsonGet ms "parameters",
              description := jsonGet ms "description" })
         else Except.ok none) := by
    intro b hb
    simp only [extract_task_from_response, hs, hp, allFieldsCheck_obj ms, hb]
    cases b <;> simp
  refine ⟨fun hall => ?_, fun hall => ?_, fun d hall hd => ?_⟩
  · rw [hbase true hall]
    simp
  · have hex : extract_task_from_response (pyStrip reply) = Except.ok none := by
      rw [hbase false hall]
      simp
    exact ⟨hex, by simp only [process_with_openai, hex]⟩
  · have hex : extract_task_from_response (pyStrip reply) =
        Except.ok (some
          { action := jsonGet ms "action", category := jsonGet ms "category",
            parameters := jsonGet ms "parameters",
            description := jsonGet ms "description" }) := by
      rw [hbase true hall]
      simp
    simp only [process_with_openai, hex, hd]

/-- The spec's concrete service reply embedding a task record. -/
def exampleReply : String :=
  "Sure! \x7b\"action\":\"volume_up\",\"category\":\"system\",\"parameters\":\x7b\x7d,\"description\":\"increase volume\"\x7d"

/-- The slice of `exampleReply` between its first `{` and its last `}`. -/
def exampleJson : String :=
  "\x7b\"action\":\"volume_up\",\"category\":\"system\",\"parameters\":\x7b\x7d,\"description\":\"increase volume\"\x7d"

/-- The decoded members of that slice. -/
def exampleMs : List (String × Json) :=
  [("action", Json.str "volume_up"), ("category", Json.str "system"),
   ("parameters", Json.obj []), ("description", Json.str "increase volume")]

/-- C8 witness: the concrete reply yields the task with action
`"volume_up"` and category `"system"`, and the acknowledgment derived from
`"increase volume"` rather than the raw reply. -/
theorem extract_and_acknowledge_witness :
    required_fields.all (jsonHasKey exampleMs) = true ∧
    process_with_openai "turn it up" (ServiceOutcome.ok exampleReply) "12:00 PM" =
      AIResult.pair "I'll increase volume."
        (some
          { action := Json.str "volume_up", category := Json.str "system",
            parameters := Json.obj [], description := Json.str "increase volume" }) :=
  ⟨rfl, (extract_and_acknowledge "turn it up" "12:00 PM" exampleReply exampleJson
      exampleMs rfl rfl).2.2 "increase volume" rfl rfl⟩
